import Mathlib

/-!
Shallow embedding of the AuerswaldCfgMgr client (files `auer_cfg_mgr.py` and
`auer_cfg_switch.py`).  Both files define the same `AuerswaldCfgMgr` class; the
methods `enable_autoswitch`, `disable_autoswitch`, `switch_config`, the URL
construction of `_fetch`/`_send`, and the `main` pre-dispatch check are
textually identical in the two files, so they are embedded once.  The lazy
PBX-identity accessors differ between the two files (`auer_cfg_mgr.py` guards
its `/tree` cache on the attribute `pbx_info` but stores into `pbx_tree`;
`auer_cfg_switch.py` guards and stores `pbx_info`), so both variants are
embedded, prefixed `mgr_` and `sw_`.

The network interaction is modelled as an explicit trace of events (HTTP GETs,
HTTP POSTs with query parameters and form data, sleeps, console output,
process exit, tunnel lifecycle).  Terminal rendering of tables is out of scope
(spec section 1) and produces no events; only the fetches that rendering
performs are traced.
-/

/-- A JSON scalar as it can appear in the fields the client inspects.
Python `==` between such a value and a string literal is true only when the
value is that very string (`True == "1"` and `1 == "1"` are false in Python). -/
inductive JsonVal where
  | str (s : String)
  | bool (b : Bool)
  | num (n : Int)
  | null
  deriving DecidableEq, Repr

/-- Python equality `v == lit` between a JSON value and a string literal. -/
def JsonVal.pyEqStr : JsonVal → String → Bool
  | .str s, t => s == t
  | _, _ => false

/-- Result of GET `/config_autoswitch_state`: fields `switchCfgCb`,
`switchSysRelais`, `switchSysRelaisName`. -/
structure AutoswitchState where
  switchCfgCb : JsonVal
  switchSysRelais : JsonVal
  switchSysRelaisName : String
  deriving DecidableEq, Repr

/-- One row of GET `/configs_state`: `id`, `data[0]` (display name),
`data[1]` (identification number as string), and `userdata.active`
(an absent key reads as not active). -/
structure ConfigEntry where
  id : Nat
  name : String
  number : String
  active : Bool
  deriving DecidableEq, Repr

/-- Observable effects of one client invocation. -/
inductive Event where
  | get (path : String)
  | post (path : String) (params : List (String × String)) (form : List (String × String))
  | sleep (seconds : Nat)
  | printOut (msg : String)
  | usageError (msg : String)
  | exitProc (code : Nat)
  | tunnelStart
  | tunnelStop
  deriving DecidableEq, Repr

def Event.isPost : Event → Bool
  | .post _ _ _ => true
  | _ => false

def Event.isGet : Event → Bool
  | .get _ => true
  | _ => false

def Event.isExit : Event → Bool
  | .exitProc _ => true
  | _ => false

def Event.isNetwork (e : Event) : Bool :=
  e.isGet || e.isPost

/-- Number of HTTP POSTs (network writes) in a trace. -/
def postCount (evs : List Event) : Nat :=
  (evs.filter Event.isPost).length

/-- Sequencing of traces under Python `SystemExit`: once `exit(...)` has run,
nothing later in the invocation executes. -/
def seqEv (a b : List Event) : List Event :=
  if a.any Event.isExit then a else a ++ b

/-- Embeds `AuerswaldCfgMgr.enable_autoswitch` (identical in both files).
The argument is the JSON document the initial GET of
`/config_autoswitch_state` returns. -/
def enable_autoswitch (current : AutoswitchState) : List Event :=
  Event.get "/config_autoswitch_state" ::
    (if current.switchCfgCb.pyEqStr "1" then []
     else [Event.post "/config_autoswitch_save" []
             [("switchCfgCb", "switchCfgCb"),
              ("switchSysRelais", "switchSysRelais"),
              ("switchSysRelaisName", current.switchSysRelaisName)]])

/-- Embeds `AuerswaldCfgMgr.disable_autoswitch` (identical in both files). -/
def disable_autoswitch (current : AutoswitchState) : List Event :=
  Event.get "/config_autoswitch_state" ::
    (if current.switchCfgCb.pyEqStr "0" then []
     else [Event.post "/config_autoswitch_save" []
             [("switchSysRelais", "switchSysRelais"),
              ("switchSysRelaisName", current.switchSysRelaisName)]])

/-- The message `switch_config` prints when no row matches. -/
def notFoundMsg (n : Int) : String :=
  s!"Identifikationsnummer {n} not found"

/-- The `for config in configs:` loop body of `switch_config`, including the
fall-through `print`/`exit(1)` after the loop. -/
def switch_loop (n : Int) : List ConfigEntry → List Event
  | [] => [Event.printOut (notFoundMsg n), Event.exitProc 1]
  | c :: rest =>
    if c.number == toString n then
      if c.active then []
      else [Event.post "/configs_set" [("configId", toString c.id)] [], Event.sleep 1]
    else switch_loop n rest

/-- Embeds `AuerswaldCfgMgr.switch_config` (identical in both files).
`rows` is the `"rows"` list the initial GET of `/configs_state` returns. -/
def switch_config (rows : List ConfigEntry) (n : Int) : List Event :=
  Event.get "/configs_state" :: switch_loop n rows

/-- URL built by `AuerswaldCfgMgr._fetch` (identical in both files):
the f-string `https://127.0.0.1:{port}{path}` when tunnelling, else
`https://{address}{path}`. -/
def fetch_url (ssh_tunnel : Bool) (auer_address : String) (local_bind_port : Nat)
    (path : String) : String :=
  if ssh_tunnel then "https://127.0.0.1:" ++ toString local_bind_port ++ path
  else "https://" ++ auer_address ++ path

/-- URL built by `AuerswaldCfgMgr._send` (identical in both files, and
textually the same construction as in `_fetch`). -/
def send_url (ssh_tunnel : Bool) (auer_address : String) (local_bind_port : Nat)
    (path : String) : String :=
  if ssh_tunnel then "https://127.0.0.1:" ++ toString local_bind_port ++ path
  else "https://" ++ auer_address ++ path

/-- First element of the GET `/tree` document: fields `pbx` and `pbxEdit`. -/
structure TreeInfo where
  pbx : String
  pbxEdit : String
  deriving DecidableEq, Repr

/-- GET `/about_state` document: fields `version`, `date`, `serial`. -/
structure AboutInfo where
  version : String
  date : String
  serial : String
  deriving DecidableEq, Repr

/-- The appliance-side documents a single invocation observes. -/
structure Env where
  tree : TreeInfo
  about : AboutInfo
  logstatus : String
  autoswitch : AutoswitchState
  rows : List ConfigEntry
  deriving DecidableEq, Repr

/-- Dynamically-set instance attributes used as lazy caches
(`hasattr`-probed in the source).  A field is `none` exactly when the
attribute has not been set on `self`. -/
structure Cache where
  pbx_info : Option TreeInfo
  pbx_tree : Option TreeInfo
  pbx_about : Option AboutInfo
  pbx_logstatus : Option String
  deriving DecidableEq, Repr

/-- The attribute state right after `__init__` (none of the lazy caches set). -/
def Cache.empty : Cache := ⟨none, none, none, none⟩

def Cache.setInfo (c : Cache) (t : TreeInfo) : Cache :=
  ⟨some t, c.pbx_tree, c.pbx_about, c.pbx_logstatus⟩

def Cache.setTree (c : Cache) (t : TreeInfo) : Cache :=
  ⟨c.pbx_info, some t, c.pbx_about, c.pbx_logstatus⟩

def Cache.setAbout (c : Cache) (a : AboutInfo) : Cache :=
  ⟨c.pbx_info, c.pbx_tree, some a, c.pbx_logstatus⟩

def Cache.setLog (c : Cache) (s : String) : Cache :=
  ⟨c.pbx_info, c.pbx_tree, c.pbx_about, some s⟩

/-- Value, updated attribute state, and network events of one accessor call. -/
structure AccResult (α : Type) where
  value : α
  cache : Cache
  events : List Event
  deriving Repr

/-- Embeds `_pbx_product` of `auer_cfg_mgr.py`: the guard probes the attribute
`pbx_info`, but the fetched tree is stored into `pbx_tree` and the return
reads `pbx_tree` (value `none` models the `AttributeError` raised when the
guard passes with `pbx_tree` unset). -/
def mgr_pbx_product (c : Cache) (env : Env) : AccResult (Option String) :=
  if c.pbx_info.isSome then
    ⟨c.pbx_tree.map TreeInfo.pbx, c, []⟩
  else
    ⟨some env.tree.pbx, c.setTree env.tree, [Event.get "/tree"]⟩

/-- Embeds `_pbx_name` of `auer_cfg_mgr.py` (same mismatched guard). -/
def mgr_pbx_name (c : Cache) (env : Env) : AccResult (Option String) :=
  if c.pbx_info.isSome then
    ⟨c.pbx_tree.map TreeInfo.pbxEdit, c, []⟩
  else
    ⟨some env.tree.pbxEdit, c.setTree env.tree, [Event.get "/tree"]⟩

/-- Characters Python `str.strip()` removes (ASCII whitespace). -/
def isPySpace (c : Char) : Bool :=
  c == ' ' || c == '\t' || c == '\n' || c == '\r' || c == '\x0b' || c == '\x0c'

def stripList (l : List Char) : List Char :=
  ((l.dropWhile isPySpace).reverse.dropWhile isPySpace).reverse

/-- Python `str.strip()` with no argument: drop leading and trailing
whitespace. -/
def pyStrip (s : String) : String :=
  String.mk (stripList s.toList)

/-- Embeds `_pbx_firmware` of `auer_cfg_mgr.py`: lazily caches the
`/about_state` document in `pbx_about`, returns `version` stripped. -/
def mgr_pbx_firmware (c : Cache) (env : Env) : AccResult String :=
  match c.pbx_about with
  | some ab => ⟨pyStrip ab.version, c, []⟩
  | none => ⟨pyStrip env.about.version, c.setAbout env.about, [Event.get "/about_state"]⟩

/-- Embeds `_pbx_date` of `auer_cfg_mgr.py`. -/
def mgr_pbx_date (c : Cache) (env : Env) : AccResult String :=
  match c.pbx_about with
  | some ab => ⟨ab.date, c, []⟩
  | none => ⟨env.about.date, c.setAbout env.about, [Event.get "/about_state"]⟩

/-- Embeds `_pbx_serial` of `auer_cfg_mgr.py`. -/
def mgr_pbx_serial (c : Cache) (env : Env) : AccResult String :=
  match c.pbx_about with
  | some ab => ⟨ab.serial, c, []⟩
  | none => ⟨env.about.serial, c.setAbout env.about, [Event.get "/about_state"]⟩

/-- Embeds `_pbx_user` of `auer_cfg_mgr.py`: lazily caches the
`/logstatus_state` document in `pbx_logstatus`. -/
def mgr_pbx_user (c : Cache) (env : Env) : AccResult String :=
  match c.pbx_logstatus with
  | some s => ⟨s, c, []⟩
  | none => ⟨env.logstatus, c.setLog env.logstatus, [Event.get "/logstatus_state"]⟩

/-- Embeds `_pbx_product` of `auer_cfg_switch.py`: guard and storage agree on
the attribute `pbx_info`. -/
def sw_pbx_product (c : Cache) (env : Env) : AccResult String :=
  match c.pbx_info with
  | some t => ⟨t.pbx, c, []⟩
  | none => ⟨env.tree.pbx, c.setInfo env.tree, [Event.get "/tree"]⟩

/-- Embeds `_pbx_name` of `auer_cfg_switch.py`. -/
def sw_pbx_name (c : Cache) (env : Env) : AccResult String :=
  match c.pbx_info with
  | some t => ⟨t.pbxEdit, c, []⟩
  | none => ⟨env.tree.pbxEdit, c.setInfo env.tree, [Event.get "/tree"]⟩

/-- Embeds `show_configurations` of `auer_cfg_mgr.py`: the header f-string
evaluates `_pbx_product`, `_pbx_firmware`, `_pbx_date`, `_pbx_serial`,
`_pbx_user`, `_pbx_name` in that order, then the tables fetch
`/config_autoswitch_state` and `/configs_state`.  Rendering itself emits no
events. -/
def mgr_show_configurations (c : Cache) (env : Env) : Cache × List Event :=
  let r1 := mgr_pbx_product c env
  let r2 := mgr_pbx_firmware r1.cache env
  let r3 := mgr_pbx_date r2.cache env
  let r4 := mgr_pbx_serial r3.cache env
  let r5 := mgr_pbx_user r4.cache env
  let r6 := mgr_pbx_name r5.cache env
  (r6.cache,
    r1.events ++ r2.events ++ r3.events ++ r4.events ++ r5.events ++ r6.events
      ++ [Event.get "/config_autoswitch_state", Event.get "/configs_state"])

/-- Parsed command line (after argparse has accepted it). -/
structure Args where
  command : String
  number : Option Int
  debug : Bool
  deriving DecidableEq, Repr

/-- The message passed to `parser.error` for `select` without a number. -/
def selectMissingNumberMsg : String := "The 'select' command requires a number."

/-- The command dispatch of `main` in `auer_cfg_mgr.py` (the branch taken once
the usage check has passed).  `--debug` only configures logging and emits no
events. -/
def mgr_dispatch (env : Env) (args : Args) : List Event :=
  if args.command == "show" then (mgr_show_configurations Cache.empty env).2
  else if args.command == "enable" then
    seqEv (enable_autoswitch env.autoswitch) (mgr_show_configurations Cache.empty env).2
  else if args.command == "disable" then
    seqEv (disable_autoswitch env.autoswitch) (mgr_show_configurations Cache.empty env).2
  else if args.command == "select" then
    seqEv (switch_config env.rows (args.number.getD 0)) (mgr_show_configurations Cache.empty env).2
  else [Event.printOut "Unsupported command"]

/-- Embeds `main` of `auer_cfg_mgr.py` from the point where `parse_args` has
returned.  `parser.error(msg)` prints the usage banner plus the message to
stderr and terminates with status 2 (documented argparse behaviour of
`ArgumentParser.error`); it runs before debug setup, before
`_connect_ssh_tunnel`, and before any dispatch. -/
def mgr_main (ssh_tunnel : Bool) (env : Env) (args : Args) : List Event :=
  if args.command == "select" && args.number.isNone then
    [Event.usageError selectMissingNumberMsg, Event.exitProc 2]
  else
    (if ssh_tunnel then [Event.tunnelStart] else [])
      ++ seqEv (mgr_dispatch env args) (if ssh_tunnel then [Event.tunnelStop] else [])

/-- The configuration-list example of spec section 8. -/
def rows0 : List ConfigEntry :=
  [⟨1, "Day", "10", true⟩, ⟨2, "Night", "20", false⟩]

/-- A concrete appliance environment used for concrete evaluations. -/
def env0 : Env :=
  ⟨⟨"COMpact 5200", "PBX Office"⟩, ⟨" 7.4A ", "01.01.24", "SN12345"⟩,
   "admin", ⟨JsonVal.str "1", JsonVal.str "1", "Relais"⟩, rows0⟩

/-- An autoswitch state whose `switchCfgCb` already is the enabled sentinel. -/
def stEnabledEx : AutoswitchState := ⟨JsonVal.str "1", JsonVal.str "1", "Relais"⟩

/-- An autoswitch state whose `switchCfgCb` is the disabled sentinel. -/
def stDisabledEx : AutoswitchState := ⟨JsonVal.str "0", JsonVal.str "0", "Relais"⟩

/-! ## Helper lemmas -/

theorem postCount_append (a b : List Event) :
    postCount (a ++ b) = postCount a + postCount b := by
  simp [postCount, List.filter_append]

theorem postCount_seqEv_le (a b : List Event) :
    postCount (seqEv a b) ≤ postCount a + postCount b := by
  unfold seqEv
  split
  · exact Nat.le_add_right _ _
  · exact Nat.le_of_eq (postCount_append a b)

/-- The linear scan of `switch_config` is the first match of `find?`. -/
theorem switch_loop_eq_find (n : Int) (rows : List ConfigEntry) :
    switch_loop n rows =
      (match rows.find? (fun c => c.number == toString n) with
       | none => [Event.printOut (notFoundMsg n), Event.exitProc 1]
       | some c =>
           if c.active then []
           else [Event.post "/configs_set" [("configId", toString c.id)] [], Event.sleep 1]) := by
  induction rows with
  | nil => rfl
  | cons c rest ih =>
    by_cases h : (c.number == toString n) = true <;>
      simp [switch_loop, List.find?_cons, h, ih]

theorem postCount_switch_config (rows : List ConfigEntry) (n : Int) :
    postCount (switch_config rows n) =
      (match rows.find? (fun c => c.number == toString n) with
       | none => 0
       | some c => if c.active then 0 else 1) := by
  unfold switch_config
  rw [show Event.get "/configs_state" :: switch_loop n rows
        = [Event.get "/configs_state"] ++ switch_loop n rows from rfl,
      postCount_append, switch_loop_eq_find]
  rcases hf : rows.find? (fun c => c.number == toString n) with _ | c
  · simp only [hf]
    simp [postCount, List.filter, Event.isPost]
  · simp only [hf]
    by_cases h : c.active <;>
      simp [h, postCount, List.filter, Event.isPost]

theorem postCount_enable (st : AutoswitchState) :
    postCount (enable_autoswitch st) =
      (if st.switchCfgCb.pyEqStr "1" then 0 else 1) := by
  unfold enable_autoswitch
  split <;> simp [postCount, List.filter, Event.isPost]

theorem postCount_disable (st : AutoswitchState) :
    postCount (disable_autoswitch st) =
      (if st.switchCfgCb.pyEqStr "0" then 0 else 1) := by
  unfold disable_autoswitch
  split <;> simp [postCount, List.filter, Event.isPost]

theorem pyEqStr_iff (v : JsonVal) (t : String) :
    v.pyEqStr t = true ↔ v = JsonVal.str t := by
  cases v <;> simp [JsonVal.pyEqStr]


theorem takeWhile_all_space (l : List Char) :
    (l.takeWhile isPySpace).all isPySpace = true := by
  induction l with
  | nil => rfl
  | cons a t ih =>
    rw [List.takeWhile_cons]
    cases h : isPySpace a
    · rfl
    · simp [h, ih]

theorem dropWhile_head_not_space (l : List Char) :
    (l.dropWhile isPySpace).head?.all (fun c => !isPySpace c) = true := by
  induction l with
  | nil => rfl
  | cons a t ih =>
    rw [List.dropWhile_cons]
    cases h : isPySpace a
    · simp [h]
    · simp [h, ih]

/-- Splitting off the trailing run of whitespace from an already
left-stripped list. -/
theorem dropWhile_decomp (l : List Char) :
    l.dropWhile isPySpace
      = stripList l ++ ((l.dropWhile isPySpace).reverse.takeWhile isPySpace).reverse := by
  have h2 : (l.dropWhile isPySpace).reverse.takeWhile isPySpace
        ++ (l.dropWhile isPySpace).reverse.dropWhile isPySpace
        = (l.dropWhile isPySpace).reverse :=
    List.takeWhile_append_dropWhile isPySpace _
  have h3 := congrArg List.reverse h2
  rw [List.reverse_append, List.reverse_reverse] at h3
  exact h3.symm

/-- `stripList` removes a whitespace run from each end of the list and
nothing else. -/
theorem stripList_decomp (l : List Char) :
    l = l.takeWhile isPySpace ++ stripList l
          ++ ((l.dropWhile isPySpace).reverse.takeWhile isPySpace).reverse := by
  have h1 : l.takeWhile isPySpace ++ l.dropWhile isPySpace = l :=
    List.takeWhile_append_dropWhile isPySpace l
  calc l = l.takeWhile isPySpace ++ l.dropWhile isPySpace := h1.symm
    _ = _ := by
      rw [List.append_assoc]
      exact congrArg (l.takeWhile isPySpace ++ ·) (dropWhile_decomp l)

theorem stripList_head_not_space (l : List Char) :
    (stripList l).head?.all (fun c => !isPySpace c) = true := by
  cases hh : (stripList l).head? with
  | none => rfl
  | some c =>
    have hd := dropWhile_head_not_space l
    rw [dropWhile_decomp l, List.head?_append, hh] at hd
    simpa using hd

theorem stripList_getLast_not_space (l : List Char) :
    (stripList l).getLast?.all (fun c => !isPySpace c) = true := by
  have hd := dropWhile_head_not_space (l.dropWhile isPySpace).reverse
  rw [show stripList l = ((l.dropWhile isPySpace).reverse.dropWhile isPySpace).reverse from rfl,
      List.getLast?_reverse]
  exact hd

/-! ## Claim theorems -/

/-- C1: `switch_config` issues exactly one POST to `/configs_set` with query
parameter `configId` equal to the matched entry's id if and only if an entry's
identification number equals `str(targetId)` and that (first-matching) entry's
active flag is not set; it issues zero writes when the matching entry is
already active (returning success) and zero writes when no entry matches, in
which case it prints a message naming the missing identification number and
exits with status 1.  The uniqueness hypothesis reflects the spec's assumption
that identification numbers are unique within one appliance's list. -/
theorem claim_C1_select_write_iff (rows : List ConfigEntry) (n : Int)
    (hu : rows.Pairwise (fun a b => a.number ≠ b.number)) :
    (switch_config rows n =
      Event.get "/configs_state" ::
        (match rows.find? (fun c => c.number == toString n) with
         | none => [Event.printOut (notFoundMsg n), Event.exitProc 1]
         | some c =>
             if c.active then []
             else [Event.post "/configs_set" [("configId", toString c.id)] [],
                   Event.sleep 1])) ∧
    (postCount (switch_config rows n) = 1 ↔
      ∃ c ∈ rows, c.number = toString n ∧ c.active = false) := by
  constructor
  · unfold switch_config
    rw [switch_loop_eq_find]
  · rw [postCount_switch_config]
    rcases hf : rows.find? (fun c => c.number == toString n) with _ | c
    · simp only [hf]
      constructor
      · intro h; exact absurd h (by decide)
      · rintro ⟨d, hd, hdnum, _⟩
        have := List.find?_eq_none.mp hf d hd
        simp [hdnum] at this
    · simp only [hf]
      have hc_mem := List.mem_of_find?_eq_some hf
      have hc_num : c.number = toString n := by
        have := List.find?_some hf
        simpa using this
      by_cases ha : c.active = true
      · rw [if_pos ha]
        constructor
        · intro h; exact absurd h (by decide)
        · rintro ⟨d, hd, hdnum, hdact⟩
          by_cases hdc : d = c
          · rw [hdc] at hdact; rw [ha] at hdact; exact absurd hdact (by decide)
          · have hsymm : Symmetric (fun a b : ConfigEntry => a.number ≠ b.number) :=
              fun _ _ hxy => hxy.symm
            have := hu.forall hsymm hd hc_mem hdc
            exact absurd (hdnum.trans hc_num.symm) this
      · rw [if_neg ha]
        constructor
        · intro _
          exact ⟨c, hc_mem, hc_num, by simpa using ha⟩
        · intro _; rfl

/-- C1 witness: the spec's own example list (`Day`/10 active, `Night`/20
inactive); selecting 20 performs exactly the POST with `configId=2`. -/
theorem claim_C1_select_write_iff_witness :
    rows0.Pairwise (fun a b => a.number ≠ b.number) ∧
    ((switch_config rows0 20 =
      Event.get "/configs_state" ::
        (match rows0.find? (fun c => c.number == toString (20 : Int)) with
         | none => [Event.printOut (notFoundMsg 20), Event.exitProc 1]
         | some c =>
             if c.active then []
             else [Event.post "/configs_set" [("configId", toString c.id)] [],
                   Event.sleep 1])) ∧
    (postCount (switch_config rows0 20) = 1 ↔
      ∃ c ∈ rows0, c.number = toString (20 : Int) ∧ c.active = false)) :=
  ⟨by decide, claim_C1_select_write_iff rows0 20 (by decide)⟩

theorem switch_loop_append_match (n : Int) (c : ConfigEntry) (hc : c.number = toString n) :
    ∀ rows1 rows2 : List ConfigEntry,
      switch_loop n (rows1 ++ c :: rows2) = switch_loop n (rows1 ++ [c])
  | [], rows2 => by
    simp [switch_loop, hc]
  | d :: rest, rows2 => by
    by_cases h : (d.number == toString n) = true <;>
      simp [switch_loop, h, switch_loop_append_match n c hc rest rows2]

/-- C9: when several entries share the target identification number,
`switch_config` acts on the first one in list order: the trace is the same as
if the later duplicates were absent, and when nothing before the first match
matches, that first entry's id and active flag alone decide the outcome. -/
theorem claim_C9_first_match_wins (rows1 rows2 : List ConfigEntry) (c : ConfigEntry)
    (n : Int) (hc : c.number = toString n) :
    switch_config (rows1 ++ c :: rows2) n = switch_config (rows1 ++ [c]) n ∧
    ((∀ d ∈ rows1, d.number ≠ toString n) →
      switch_config (rows1 ++ c :: rows2) n =
        Event.get "/configs_state" ::
          (if c.active then []
           else [Event.post "/configs_set" [("configId", toString c.id)] [],
                 Event.sleep 1])) := by
  constructor
  · unfold switch_config
    rw [switch_loop_append_match n c hc rows1 rows2]
  · intro hno
    unfold switch_config
    rw [switch_loop_append_match n c hc rows1 rows2]
    congr 1
    induction rows1 with
    | nil => simp [switch_loop, hc]
    | cons d rest ih =>
      have hd : (d.number == toString n) = false := by
        have := hno d (List.mem_cons_self d rest)
        simpa using this
      rw [List.cons_append]
      simp only [switch_loop, hd]
      simp only [Bool.false_eq_true, if_false]
      exact ih (fun e he => hno e (List.mem_cons_of_mem d he))

/-- C9 witness: list `Day`/10 (active), then two entries with number 20; the
trace equals the one without the duplicate and posts the first match's id 2. -/
theorem claim_C9_first_match_wins_witness :
    (switch_config ([⟨1, "Day", "10", true⟩] ++ ⟨2, "Night", "20", false⟩
        :: [⟨3, "Dup", "20", true⟩]) 20
      = switch_config ([⟨1, "Day", "10", true⟩] ++ [⟨2, "Night", "20", false⟩]) 20) ∧
    ((∀ d ∈ [(⟨1, "Day", "10", true⟩ : ConfigEntry)], d.number ≠ toString (20 : Int)) →
      switch_config ([⟨1, "Day", "10", true⟩] ++ ⟨2, "Night", "20", false⟩
          :: [⟨3, "Dup", "20", true⟩]) 20 =
        Event.get "/configs_state" ::
          (if (⟨2, "Night", "20", false⟩ : ConfigEntry).active then []
           else [Event.post "/configs_set"
                   [("configId", toString (⟨2, "Night", "20", false⟩ : ConfigEntry).id)] [],
                 Event.sleep 1])) :=
  claim_C9_first_match_wins [⟨1, "Day", "10", true⟩] [⟨3, "Dup", "20", true⟩]
    ⟨2, "Night", "20", false⟩ 20 (by decide)

/-- C2 counterexample: when `switchCfgCb` is already the enabled sentinel
`"1"`, the first `enable_autoswitch` call writes nothing, so the second call
observes the same state and the two calls together perform zero POSTs — not
exactly one as the claim states for every starting state. -/
theorem claim_C2_counterexample :
    postCount (enable_autoswitch stEnabledEx ++ enable_autoswitch stEnabledEx) = 0 ∧
    (postCount (enable_autoswitch stEnabledEx ++ enable_autoswitch stEnabledEx) == 1)
      = false := by
  decide

/-- C2 (amended): two consecutive `enable_autoswitch` calls perform at most
one POST to `/config_autoswitch_save`: zero when `switchCfgCb` already equals
the enabled sentinel (each call is a no-op reporting success), and exactly one
otherwise (the first call writes; the second call, observing the enabled
state, performs no write).  `st2` is the state the second call fetches: equal
to `st` when nothing was written, and showing the enabled sentinel after the
first call's write. -/
theorem claim_C2_enable_idempotent (st st2 : AutoswitchState)
    (hwrite : st.switchCfgCb ≠ JsonVal.str "1" → st2.switchCfgCb = JsonVal.str "1")
    (hnoop : st.switchCfgCb = JsonVal.str "1" → st2 = st) :
    postCount (enable_autoswitch st ++ enable_autoswitch st2) =
      (if st.switchCfgCb = JsonVal.str "1" then 0 else 1) := by
  rw [postCount_append, postCount_enable, postCount_enable]
  by_cases h : st.switchCfgCb = JsonVal.str "1"
  · rw [hnoop h, if_pos h]
    rw [if_pos ((pyEqStr_iff st.switchCfgCb "1").mpr h)]
  · have h2 := hwrite h
    rw [if_neg h]
    rw [if_neg (by
      intro hb
      exact h ((pyEqStr_iff st.switchCfgCb "1").mp hb))]
    rw [if_pos ((pyEqStr_iff st2.switchCfgCb "1").mpr h2)]

/-- C2 witness: starting disabled, the two calls perform exactly one POST. -/
theorem claim_C2_enable_idempotent_witness :
    postCount (enable_autoswitch stDisabledEx ++ enable_autoswitch stEnabledEx) =
      (if stDisabledEx.switchCfgCb = JsonVal.str "1" then 0 else 1) :=
  claim_C2_enable_idempotent stDisabledEx stEnabledEx (by decide) (by decide)

/-- C3: every POST `disable_autoswitch` performs goes to
`/config_autoswitch_save` and its form data carries `switchSysRelaisName`
equal to the value fetched from `/config_autoswitch_state` immediately before
(never a hardcoded default), omits `switchCfgCb`, and includes
`switchSysRelais`. -/
theorem claim_C3_disable_preserves_relais (st : AutoswitchState)
    (path : String) (params form : List (String × String))
    (h : Event.post path params form ∈ disable_autoswitch st) :
    path = "/config_autoswitch_save" ∧
    form.lookup "switchSysRelaisName" = some st.switchSysRelaisName ∧
    form.lookup "switchCfgCb" = none ∧
    form.lookup "switchSysRelais" = some "switchSysRelais" := by
  unfold disable_autoswitch at h
  by_cases hg : st.switchCfgCb.pyEqStr "0" = true
  · rw [if_pos hg] at h
    simp at h
  · rw [if_neg hg] at h
    simp at h
    obtain ⟨hp, _, hform⟩ := h
    subst hp
    subst hform
    exact ⟨rfl, rfl, rfl, rfl⟩

/-- C3 witness: a concrete fetched state with the autoswitch enabled and relay
name `MyRelay`; the posted form carries exactly that name. -/
theorem claim_C3_disable_preserves_relais_witness :
    "/config_autoswitch_save" = "/config_autoswitch_save" ∧
    ([("switchSysRelais", "switchSysRelais"),
      ("switchSysRelaisName", "MyRelay")].lookup "switchSysRelaisName"
        = some (AutoswitchState.mk (JsonVal.str "1") (JsonVal.str "1")
            "MyRelay").switchSysRelaisName) ∧
    ([("switchSysRelais", "switchSysRelais"),
      ("switchSysRelaisName", "MyRelay")].lookup "switchCfgCb" = none) ∧
    ([("switchSysRelais", "switchSysRelais"),
      ("switchSysRelaisName", "MyRelay")].lookup "switchSysRelais"
        = some "switchSysRelais") :=
  claim_C3_disable_preserves_relais
    ⟨JsonVal.str "1", JsonVal.str "1", "MyRelay"⟩
    "/config_autoswitch_save" []
    [("switchSysRelais", "switchSysRelais"), ("switchSysRelaisName", "MyRelay")]
    (by decide)

/-- C4 (bug evidence): in `auer_cfg_mgr.py` the `/tree` accessors probe the
attribute `pbx_info` but store the fetched document into `pbx_tree`, so the
guard never fires: a second `_pbx_product` call (and a following `_pbx_name`
call) each fetch `/tree` again.  The sibling file `auer_cfg_switch.py` guards
and stores the same attribute and does cache, and `_pbx_firmware` in
`auer_cfg_mgr.py` caches correctly, which shows the dead guard is a slip. -/
theorem claim_C4_mgr_product_cache_broken :
    (mgr_pbx_product Cache.empty env0).events = [Event.get "/tree"] ∧
    (mgr_pbx_product (mgr_pbx_product Cache.empty env0).cache env0).events
      = [Event.get "/tree"] ∧
    (mgr_pbx_name (mgr_pbx_product Cache.empty env0).cache env0).events
      = [Event.get "/tree"] ∧
    (sw_pbx_product (sw_pbx_product Cache.empty env0).cache env0).events = [] ∧
    (mgr_pbx_firmware (mgr_pbx_firmware Cache.empty env0).cache env0).events = [] := by
  decide

/-- C5 counterexample: `select` without a number runs `parser.error`, which
terminates the invocation with exit status 2 (documented argparse behaviour),
not with exit code 1 as the claim states; no exit with code 1 occurs. -/
theorem claim_C5_counterexample :
    mgr_main true env0 ⟨"select", none, false⟩ =
      [Event.usageError selectMissingNumberMsg, Event.exitProc 2] ∧
    (mgr_main true env0 ⟨"select", none, false⟩).contains (Event.exitProc 1) = false := by
  decide

/-- C5 (amended): when the command is `select` and the positional number is
absent, the invocation terminates via `parser.error` with exit status 2 and
the descriptive message, and its trace contains no network request and no
tunnel setup — the check runs before any side effect. -/
theorem claim_C5_usage_error_before_effects (tun : Bool) (env : Env) (args : Args)
    (hc : args.command = "select") (hn : args.number = none) :
    mgr_main tun env args =
      [Event.usageError selectMissingNumberMsg, Event.exitProc 2] ∧
    (mgr_main tun env args).all
      (fun e => !e.isNetwork && !(e == Event.tunnelStart)) = true := by
  have hcond : (args.command == "select" && args.number.isNone) = true := by
    rw [hc, hn]; rfl
  constructor
  · unfold mgr_main
    rw [if_pos hcond]
  · unfold mgr_main
    rw [if_pos hcond]
    rfl

/-- C5 witness: concrete invocation `select` with no number over `env0`. -/
theorem claim_C5_usage_error_before_effects_witness :
    (mgr_main true env0 ⟨"select", none, false⟩ =
      [Event.usageError selectMissingNumberMsg, Event.exitProc 2]) ∧
    (mgr_main true env0 ⟨"select", none, false⟩).all
      (fun e => !e.isNetwork && !(e == Event.tunnelStart)) = true :=
  claim_C5_usage_error_before_effects true env0 ⟨"select", none, false⟩ rfl rfl

/-- C6: with the SSH-tunnel flag false, `_fetch` and `_send` target
`https://<applianceAddress><path>`; with it true, they target
`https://127.0.0.1:<localBoundPort><path>`; the two functions build URLs
identically. -/
theorem claim_C6_url_selection (a : String) (port : Nat) (path : String) :
    fetch_url false a port path = "https://" ++ a ++ path ∧
    fetch_url true a port path = "https://127.0.0.1:" ++ toString port ++ path ∧
    send_url false a port path = fetch_url false a port path ∧
    send_url true a port path = fetch_url true a port path :=
  ⟨rfl, rfl, rfl, rfl⟩

/-- C7: the firmware accessor lazily reads `/about_state` and returns the
`version` field with leading and trailing whitespace removed: the result is
the raw value minus a whitespace run at each end, itself starting and ending
with non-whitespace, and on the raw value `" 7.4A "` it is `"7.4A"`. -/
theorem claim_C7_firmware_strip (env : Env) :
    (mgr_pbx_firmware Cache.empty env).value = pyStrip env.about.version ∧
    (∃ pre post : List Char,
      env.about.version.toList
          = pre ++ ((mgr_pbx_firmware Cache.empty env).value).toList ++ post ∧
      pre.all isPySpace = true ∧ post.all isPySpace = true) ∧
    ((mgr_pbx_firmware Cache.empty env).value).toList.head?.all
        (fun c => !isPySpace c) = true ∧
    ((mgr_pbx_firmware Cache.empty env).value).toList.getLast?.all
        (fun c => !isPySpace c) = true ∧
    pyStrip " 7.4A " = "7.4A" := by
  have hv : (mgr_pbx_firmware Cache.empty env).value = pyStrip env.about.version := rfl
  have htl : (pyStrip env.about.version).toList = stripList env.about.version.toList := rfl
  refine ⟨hv, ?_, ?_, ?_, by decide⟩
  · rw [hv, htl]
    exact ⟨_, _, stripList_decomp env.about.version.toList,
      takeWhile_all_space _, by rw [List.all_reverse]; exact takeWhile_all_space _⟩
  · rw [hv, htl]
    exact stripList_head_not_space _
  · rw [hv, htl]
    exact stripList_getLast_not_space _

theorem postCount_enable_le (st : AutoswitchState) :
    postCount (enable_autoswitch st) ≤ 1 := by
  rw [postCount_enable]
  split <;> simp

theorem postCount_disable_le (st : AutoswitchState) :
    postCount (disable_autoswitch st) ≤ 1 := by
  rw [postCount_disable]
  split <;> simp

theorem postCount_switch_le (rows : List ConfigEntry) (n : Int) :
    postCount (switch_config rows n) ≤ 1 := by
  rw [postCount_switch_config]
  rcases hf : rows.find? (fun c => c.number == toString n) with _ | c <;> simp only [hf]
  · simp
  · split <;> simp

theorem postCount_mgr_product (c : Cache) (env : Env) :
    postCount (mgr_pbx_product c env).events = 0 := by
  unfold mgr_pbx_product
  split <;> simp [postCount, List.filter, Event.isPost]

theorem postCount_mgr_name (c : Cache) (env : Env) :
    postCount (mgr_pbx_name c env).events = 0 := by
  unfold mgr_pbx_name
  split <;> simp [postCount, List.filter, Event.isPost]

theorem postCount_mgr_firmware (c : Cache) (env : Env) :
    postCount (mgr_pbx_firmware c env).events = 0 := by
  unfold mgr_pbx_firmware
  split <;> simp [postCount, List.filter, Event.isPost]

theorem postCount_mgr_date (c : Cache) (env : Env) :
    postCount (mgr_pbx_date c env).events = 0 := by
  unfold mgr_pbx_date
  split <;> simp [postCount, List.filter, Event.isPost]

theorem postCount_mgr_serial (c : Cache) (env : Env) :
    postCount (mgr_pbx_serial c env).events = 0 := by
  unfold mgr_pbx_serial
  split <;> simp [postCount, List.filter, Event.isPost]

theorem postCount_mgr_user (c : Cache) (env : Env) :
    postCount (mgr_pbx_user c env).events = 0 := by
  unfold mgr_pbx_user
  split <;> simp [postCount, List.filter, Event.isPost]

theorem postCount_show (c : Cache) (env : Env) :
    postCount (mgr_show_configurations c env).2 = 0 := by
  simp only [mgr_show_configurations, postCount_append, postCount_mgr_product,
    postCount_mgr_name, postCount_mgr_firmware, postCount_mgr_date,
    postCount_mgr_serial, postCount_mgr_user]
  rfl

theorem postCount_dispatch_le (env : Env) (args : Args) :
    postCount (mgr_dispatch env args) ≤ 1 := by
  unfold mgr_dispatch
  split
  · rw [postCount_show]
    exact Nat.zero_le 1
  · split
    · have := postCount_seqEv_le (enable_autoswitch env.autoswitch)
        (mgr_show_configurations Cache.empty env).2
      rw [postCount_show] at this
      have h2 := postCount_enable_le env.autoswitch
      omega
    · split
      · have := postCount_seqEv_le (disable_autoswitch env.autoswitch)
          (mgr_show_configurations Cache.empty env).2
        rw [postCount_show] at this
        have h2 := postCount_disable_le env.autoswitch
        omega
      · split
        · have := postCount_seqEv_le (switch_config env.rows (args.number.getD 0))
            (mgr_show_configurations Cache.empty env).2
          rw [postCount_show] at this
          have h2 := postCount_switch_le env.rows (args.number.getD 0)
          omega
        · simp [postCount, List.filter, Event.isPost]

theorem postCount_main_le (tun : Bool) (env : Env) (args : Args) :
    postCount (mgr_main tun env args) ≤ 1 := by
  unfold mgr_main
  split
  · simp [postCount, List.filter, Event.isPost]
  · rw [postCount_append]
    have h1 : postCount (if tun then [Event.tunnelStart] else []) = 0 := by
      split <;> simp [postCount, List.filter, Event.isPost]
    have h2 : postCount (if tun then [Event.tunnelStop] else []) = 0 := by
      split <;> simp [postCount, List.filter, Event.isPost]
    have h3 := postCount_seqEv_le (mgr_dispatch env args)
      (if tun then [Event.tunnelStop] else [])
    have h4 := postCount_dispatch_le env args
    omega

/-- C8: each of `enable_autoswitch`, `disable_autoswitch` and `switch_config`
performs at most one POST, whatever state the fetches return, and a whole
`main` invocation also performs at most one POST. -/
theorem claim_C8_at_most_one_write (st st2 : AutoswitchState) (rows : List ConfigEntry)
    (n : Int) (tun : Bool) (env : Env) (args : Args) :
    postCount (enable_autoswitch st) ≤ 1 ∧
    postCount (disable_autoswitch st2) ≤ 1 ∧
    postCount (switch_config rows n) ≤ 1 ∧
    postCount (mgr_main tun env args) ≤ 1 :=
  ⟨postCount_enable_le st, postCount_disable_le st2, postCount_switch_le rows n,
   postCount_main_le tun env args⟩

/-- C10: the idempotence guards compare with Python `==` against the exact
strings `"1"` (enable) and `"0"` (disable): the calls are no-ops exactly when
`switchCfgCb` is that very string, and any other JSON value — a boolean, an
integer, the empty string — makes both calls POST even if the state is
semantically already in the desired condition. -/
theorem claim_C10_exact_sentinels :
    (∀ st : AutoswitchState,
      (postCount (enable_autoswitch st) = 0 ↔ st.switchCfgCb = JsonVal.str "1") ∧
      (postCount (disable_autoswitch st) = 0 ↔ st.switchCfgCb = JsonVal.str "0")) ∧
    postCount (enable_autoswitch ⟨JsonVal.bool true, JsonVal.null, "R"⟩) = 1 ∧
    postCount (disable_autoswitch ⟨JsonVal.bool false, JsonVal.null, "R"⟩) = 1 ∧
    postCount (enable_autoswitch ⟨JsonVal.num 1, JsonVal.null, "R"⟩) = 1 ∧
    postCount (disable_autoswitch ⟨JsonVal.num 0, JsonVal.null, "R"⟩) = 1 ∧
    postCount (enable_autoswitch ⟨JsonVal.str "", JsonVal.null, "R"⟩) = 1 ∧
    postCount (disable_autoswitch ⟨JsonVal.str "", JsonVal.null, "R"⟩) = 1 := by
  refine ⟨fun st => ⟨?_, ?_⟩, by decide, by decide, by decide, by decide, by decide,
    by decide⟩
  · rw [postCount_enable]
    by_cases h : st.switchCfgCb.pyEqStr "1" = true
    · rw [if_pos h]
      exact iff_of_true rfl ((pyEqStr_iff st.switchCfgCb "1").mp h)
    · rw [if_neg h]
      constructor
      · intro h1; exact absurd h1 (by decide)
      · intro he
        exact absurd ((pyEqStr_iff st.switchCfgCb "1").mpr he) h
  · rw [postCount_disable]
    by_cases h : st.switchCfgCb.pyEqStr "0" = true
    · rw [if_pos h]
      exact iff_of_true rfl ((pyEqStr_iff st.switchCfgCb "0").mp h)
    · rw [if_neg h]
      constructor
      · intro h1; exact absurd h1 (by decide)
      · intro he
        exact absurd ((pyEqStr_iff st.switchCfgCb "0").mpr he) h
